import Mathlib

/-!
Shallow embedding of the Flask TTS server (src/tts.py) and verification of
the frozen claims about it.

The embedding is faithful to the Python source:
  - JSON values are modelled by an inductive type mirroring what
    request.get_json can return (None, bool, number, string, array, object).
  - Python truthiness, dict.get, str.strip and str.replace are embedded as
    executable Lean functions with the same semantics on these values.
  - The external provider (google.cloud.texttospeech) is an oracle passed to
    the handlers; a handler result records the HTTP response, the synthesis
    request sent to the provider (if any), and the temp files left on disk
    after the request.
  - Exceptions are modelled with Except; the blanket except block of the
    /tts handler is the function tts_error_response.
-/

namespace FlaskTts

/-- A JSON value as decoded by request.get_json. Objects model Python dicts
(unique keys). -/
inductive Json where
  | null
  | bool (b : Bool)
  | num (n : Int)
  | str (s : String)
  | arr (elems : List Json)
  | obj (fields : List (String × Json))

/-- Python truthiness of a decoded JSON value, as tested by the line
if not data. -/
def Json.truthy : Json → Bool
  | .null => false
  | .bool b => b
  | .num n => decide (n ≠ 0)
  | .str s => decide (s ≠ "")
  | .arr elems => !elems.isEmpty
  | .obj fields => !fields.isEmpty

/-- The Python type name of a decoded JSON value, as it appears in an
AttributeError message. -/
def Json.pyTypeName : Json → String
  | .null => "NoneType"
  | .bool _ => "bool"
  | .num _ => "int"
  | .str _ => "str"
  | .arr _ => "list"
  | .obj _ => "dict"

/-- A single-quote character, written by code point. -/
def sq : String := "\x27"

/-- The message of the AttributeError raised when calling a missing
attribute on a Python value. -/
def pyAttrError (tyName attr : String) : String :=
  sq ++ tyName ++ sq ++ " object has no attribute " ++ sq ++ attr ++ sq

/-- Key lookup in a decoded JSON object (Python dict lookup; dict keys are
unique). -/
def lookupKey (k : String) : List (String × Json) → Option Json
  | [] => none
  | (k2, v) :: rest => if k2 = k then some v else lookupKey k rest

/-- Python dict.get with a default. On a non-dict value it raises an
AttributeError, whose message is returned in the error case. -/
def Json.pyGet : Json → String → Json → Except String Json
  | .obj fields, key, dflt => .ok ((lookupKey key fields).getD dflt)
  | j, _, _ => .error (pyAttrError j.pyTypeName "get")

/-- Default whitespace stripped by Python str.strip: exactly the characters
whose str.isspace() is true — ASCII whitespace, the four separator control
characters, NEL, and the Unicode space, line and paragraph separators. -/
def isPySpace (c : Char) : Bool :=
  c = ' ' || c = '\t' || c = '\n' || c = '\r' || c = '\x0b' || c = '\x0c'
  || c = '\x1c' || c = '\x1d' || c = '\x1e' || c = '\x1f'
  || c = '\x85' || c = '\xa0' || c = '\u1680'
  || c = '\u2000' || c = '\u2001' || c = '\u2002' || c = '\u2003'
  || c = '\u2004' || c = '\u2005' || c = '\u2006' || c = '\u2007'
  || c = '\u2008' || c = '\u2009' || c = '\u200a'
  || c = '\u2028' || c = '\u2029' || c = '\u202f' || c = '\u205f' || c = '\u3000'

/-- Python str.strip with no arguments: drop leading and trailing
whitespace. -/
def pyStrip (s : String) : String :=
  String.mk (((s.data.dropWhile isPySpace).reverse.dropWhile isPySpace).reverse)

/-- Calling .strip() on a decoded JSON value: only strings have the strip
attribute; anything else raises an AttributeError. -/
def Json.pyStripAttr : Json → Except String String
  | .str s => .ok (pyStrip s)
  | j => .error (pyAttrError j.pyTypeName "strip")

/-- Does the pattern occur at the head of the haystack (as char lists)? -/
def beginsWith : List Char → List Char → Bool
  | [], _ => true
  | _ :: _, [] => false
  | p :: ps, c :: cs => p = c && beginsWith ps cs

/-- Python substring containment, pattern in haystack, on char lists. -/
def containsSeq : List Char → List Char → Bool
  | pat, [] => pat.isEmpty
  | pat, c :: rest => beginsWith pat (c :: rest) || containsSeq pat rest

/-- Python substring test on strings: pat in hay. -/
def strContains (hay pat : String) : Bool :=
  containsSeq pat.data hay.data

/-- An HTTP response body: a JSON document, or a file sent with send_file. -/
inductive HttpBody where
  | jsonObj (j : Json)
  | file (path : String) (mimetype : String) (asAttachment : Bool) (downloadName : String)

/-- An HTTP response: status code and body. -/
structure HttpResponse where
  status : Nat
  body : HttpBody

/-- The body produced by jsonify with a single error field. -/
def errorBody (msg : String) : HttpBody :=
  .jsonObj (.obj [("error", Json.str msg)])

/-- The synthesis request the /tts handler sends to the external provider:
the stripped text plus the languageCode and voiceName values taken from the
request body (defaults en-US and en-US-Wavenet-D). -/
structure SynthParams where
  text : String
  language_code : Json
  voice_name : Json

/-- Outcome of the external synthesize_speech call: audio bytes, or an
exception with message msg. -/
inductive SynthOutcome where
  | success (audio : List Nat)
  | failure (msg : String)

/-- A temporary file on disk: path and contents. -/
structure TempFile where
  path : String
  contents : List Nat

/-- Result of one /tts request: the HTTP response, the synthesis request
sent to the provider (none when the provider was never called), and the
temp files remaining on disk after the request finishes. -/
structure TtsResult where
  response : HttpResponse
  providerCall : Option SynthParams
  filesLeft : List TempFile

/-- Outcome of request.get_json(): it either raises (malformed JSON body,
or in newer Flask a missing JSON content type), or returns None, or returns
a decoded JSON value. -/
inductive GetJsonResult where
  | raises (msg : String)
  | returns (data : Option Json)

/-- The blanket except block of the /tts handler (src/tts.py lines 150-169):
classify the exception message by substring and map it to a response. -/
def tts_error_response (msg : String) : HttpResponse :=
  if strContains msg "PERMISSION_DENIED" then
    ⟨403, errorBody "Permission denied. Please check your Google Cloud credentials and API access."⟩
  else if strContains msg "INVALID_ARGUMENT" then
    ⟨400, errorBody ("Invalid request parameters: " ++ msg)⟩
  else if strContains msg "UNIMPLEMENTED" then
    ⟨503, errorBody "TTS service is currently unavailable. Please try again later."⟩
  else
    ⟨500, errorBody ("TTS service error: " ++ msg)⟩

/-- Lines 98-100 of src/tts.py: fetch and strip the text field, then fetch
languageCode and voiceName with their defaults. Any AttributeError raised
on the way is propagated as the error case. -/
def extract_request_fields (data : Json) : Except String (String × Json × Json) :=
  match data.pyGet "text" (.str "") with
  | .error e => .error e
  | .ok t =>
    match t.pyStripAttr with
    | .error e => .error e
    | .ok text =>
      match data.pyGet "languageCode" (.str "en-US") with
      | .error e => .error e
      | .ok language_code =>
        match data.pyGet "voiceName" (.str "en-US-Wavenet-D") with
        | .error e => .error e
        | .ok voice_name => .ok (text, language_code, voice_name)

/-- The POST /tts handler (src/tts.py lines 72-169). clientPresent states
whether the module-level client is not None; getJson is the outcome of
request.get_json(); synth is the external synthesize_speech call; tmpPath
is the name the OS gives the NamedTemporaryFile. On success the audio is
written to that file (created with delete disabled and never removed), and
the file is sent as the response. -/
def text_to_speech (clientPresent : Bool) (getJson : GetJsonResult)
    (synth : SynthParams → SynthOutcome) (tmpPath : String) : TtsResult :=
  if clientPresent = false then
    ⟨⟨503, errorBody "Text-to-Speech service is not available. Please check your Google Cloud configuration."⟩, none, []⟩
  else
    match getJson with
    | .raises msg => ⟨tts_error_response msg, none, []⟩
    | .returns none => ⟨⟨400, errorBody "No JSON data provided"⟩, none, []⟩
    | .returns (some data) =>
      if data.truthy = false then
        ⟨⟨400, errorBody "No JSON data provided"⟩, none, []⟩
      else
        match extract_request_fields data with
        | .error msg => ⟨tts_error_response msg, none, []⟩
        | .ok (text, language_code, voice_name) =>
          if text = "" then
            ⟨⟨400, errorBody "Text is required"⟩, none, []⟩
          else if 5000 < text.length then
            ⟨⟨400, errorBody "Text too long (max 5000 characters)"⟩, none, []⟩
          else
            match synth ⟨text, language_code, voice_name⟩ with
            | .success audio =>
              ⟨⟨200, .file tmpPath "audio/mpeg" false "speech.mp3"⟩,
               some ⟨text, language_code, voice_name⟩, [⟨tmpPath, audio⟩]⟩
            | .failure msg =>
              ⟨tts_error_response msg, some ⟨text, language_code, voice_name⟩, []⟩

/-- One entry of the voice catalog returned by the provider. -/
structure VoiceDescriptor where
  name : String
  language_codes : List String
  ssml_gender : String
  natural_sample_rate_hertz : Int

/-- Outcome of the external list_voices call. -/
inductive VoicesOutcome where
  | success (voices : List VoiceDescriptor)
  | failure (msg : String)

/-- The dict built for one voice in the /voices handler. -/
def voice_to_json (v : VoiceDescriptor) : Json :=
  .obj [("name", .str v.name),
        ("language_codes", .arr (v.language_codes.map Json.str)),
        ("ssml_gender", .str v.ssml_gender),
        ("natural_sample_rate_hertz", .num v.natural_sample_rate_hertz)]

/-- The GET /voices handler (src/tts.py lines 171-202). languageCodeArg is
request.args.get of language_code (none when the query parameter is
absent); providerVoices is the external list_voices call. The second
component of the result is the filter passed to the provider, if it was
called at all. -/
def list_voices (clientPresent : Bool) (languageCodeArg : Option String)
    (providerVoices : String → VoicesOutcome) : HttpResponse × Option String :=
  if clientPresent = false then
    (⟨503, errorBody "Text-to-Speech service is not available"⟩, none)
  else
    let language_code := languageCodeArg.getD ""
    match providerVoices language_code with
    | .success voices =>
      (⟨200, .jsonObj (.obj [("voices", .arr (voices.map voice_to_json)),
                             ("total_count", .num voices.length)])⟩,
       some language_code)
    | .failure msg =>
      (⟨500, errorBody ("Failed to list voices: " ++ msg)⟩, some language_code)

/-- The GET /health handler (src/tts.py lines 63-70). -/
def health_check (clientPresent : Bool) : HttpResponse :=
  ⟨200, .jsonObj (.obj [("status", .str "healthy"),
                        ("service", .str "Flask TTS API"),
                        ("tts_available", .bool clientPresent)])⟩

/-- The hardcoded language dict of the /supported-languages handler
(src/tts.py lines 207-255), in source order. -/
def supported_languages_map : List (String × String) :=
  [("en", "English"), ("es", "Spanish"), ("fr", "French"), ("de", "German"),
   ("it", "Italian"), ("pt", "Portuguese"), ("ru", "Russian"), ("ja", "Japanese"),
   ("ko", "Korean"), ("zh", "Chinese"), ("ar", "Arabic"), ("hi", "Hindi"),
   ("nl", "Dutch"), ("sv", "Swedish"), ("no", "Norwegian"), ("da", "Danish"),
   ("fi", "Finnish"), ("pl", "Polish"), ("tr", "Turkish"), ("uk", "Ukrainian"),
   ("cs", "Czech"), ("sk", "Slovak"), ("hu", "Hungarian"), ("ro", "Romanian"),
   ("bg", "Bulgarian"), ("hr", "Croatian"), ("sl", "Slovenian"), ("et", "Estonian"),
   ("lv", "Latvian"), ("lt", "Lithuanian"), ("th", "Thai"), ("vi", "Vietnamese"),
   ("id", "Indonesian"), ("ms", "Malay"), ("tl", "Filipino"), ("el", "Greek"),
   ("he", "Hebrew"), ("bn", "Bengali"), ("ta", "Tamil"), ("te", "Telugu"),
   ("mr", "Marathi"), ("gu", "Gujarati"), ("pa", "Punjabi"), ("ur", "Urdu"),
   ("sw", "Swahili"), ("af", "Afrikaans"), ("is", "Icelandic")]

/-- The GET /supported-languages handler (src/tts.py lines 204-260): a
constant response built from the hardcoded dict, with total_count equal to
the length of that dict. -/
def supported_languages : HttpResponse :=
  ⟨200, .jsonObj (.obj
    [("languages", .obj (supported_languages_map.map (fun p => (p.1, Json.str p.2)))),
     ("total_count", .num supported_languages_map.length)])⟩

/-- The process environment seen through os.getenv. -/
abbrev Env := String → Option String

/-- Python str.replace of the two-character sequence backslash n by a real
newline, leftmost first, non-overlapping — the transformation applied to
the private key on line 26 of src/tts.py. -/
def unescapeNewlines : List Char → List Char
  | [] => []
  | [c] => [c]
  | c1 :: c2 :: rest =>
    if c1 = '\\' && c2 = 'n' then '\n' :: unescapeNewlines rest
    else c1 :: unescapeNewlines (c2 :: rest)

/-- The credentials_info dict built on lines 22-34 of src/tts.py. Absent
variables stay absent except the private key, where None is coerced to the
empty string and the newline unescaping is applied. -/
structure CredentialsInfo where
  accountType : String
  project_id : Option String
  private_key_id : Option String
  private_key : String
  client_email : Option String
  client_id : Option String
  auth_uri : Option String
  token_uri : Option String
  auth_provider_x509_cert_url : Option String
  client_x509_cert_url : Option String
  universe_domain : Option String

/-- Build the credentials_info dict from the environment. -/
def credentials_info (env : Env) : CredentialsInfo :=
  ⟨"service_account",
   env "GOOGLE_CLOUD_PROJECT_ID",
   env "GOOGLE_CLOUD_PRIVATE_KEY_ID",
   String.mk (unescapeNewlines ((env "GOOGLE_CLOUD_PRIVATE_KEY").getD "").data),
   env "GOOGLE_CLOUD_CLIENT_EMAIL",
   env "GOOGLE_CLIENT_ID",
   env "GOOGLE_AUTH_URI",
   env "GOOGLE_TOKEN_URI",
   env "GOOGLE_AUTH_PROVIDER_x509_CERT_URL",
   env "GOOGLE_CLIENT_x509_CERT_URL",
   env "GOOGLE_UNIVERSE_DOMAIN"⟩

/-- Python falsiness of os.getenv for one variable: absent, or present but
empty (the test not os.getenv(var) on line 43). -/
def envMissing (env : Env) (v : String) : Bool :=
  match env v with
  | none => true
  | some s => s = ""

/-- The three required variables of lines 37-41. -/
def required_vars : List String :=
  ["GOOGLE_CLOUD_PROJECT_ID", "GOOGLE_CLOUD_PRIVATE_KEY", "GOOGLE_CLOUD_CLIENT_EMAIL"]

/-- The missing_vars list comprehension of line 43. -/
def missing_vars (env : Env) : List String :=
  required_vars.filter (envMissing env)

/-- Outcome of the external construction on lines 49-52 (building the
credentials object from credentials_info and then the client), which the
surrounding try can see raise. -/
inductive ConstructOutcome where
  | success
  | raises (msg : String)

/-- create_tts_client (src/tts.py lines 19-58): returns None when a
required variable is missing, or when the external construction raises
(any exception is caught and None returned); otherwise the client, which
we identify by the credentials it holds. -/
def create_tts_client (env : Env) (construct : CredentialsInfo → ConstructOutcome) :
    Option CredentialsInfo :=
  if (missing_vars env).isEmpty = false then none
  else
    match construct (credentials_info env) with
    | .success => some (credentials_info env)
    | .raises _ => none

/-- Field access in a JSON object (none on non-objects). -/
def Json.field (j : Json) (k : String) : Option Json :=
  match j with
  | .obj fields => lookupKey k fields
  | _ => none

/-- Field access in the JSON body of a response (none for file bodies). -/
def HttpResponse.jsonField (r : HttpResponse) (k : String) : Option Json :=
  match r.body with
  | .jsonObj j => j.field k
  | _ => none

/-- Claim C3: whenever the synthesis client is absent, every POST /tts
request and every GET /voices request returns 503 with a JSON error body,
regardless of the request body or query parameters, the provider is never
called, and no temp file is left: the availability check precedes all
other validation. -/
theorem claim_c3_client_absent :
    (∀ (getJson : GetJsonResult) (synth : SynthParams → SynthOutcome) (tmpPath : String),
      text_to_speech false getJson synth tmpPath
        = ⟨⟨503, errorBody "Text-to-Speech service is not available. Please check your Google Cloud configuration."⟩,
           none, []⟩)
    ∧ (∀ (lcArg : Option String) (providerVoices : String → VoicesOutcome),
      list_voices false lcArg providerVoices
        = (⟨503, errorBody "Text-to-Speech service is not available"⟩, none)) :=
  ⟨fun _ _ _ => rfl, fun _ _ => rfl⟩

/-- Claim C5: every GET /health request returns 200 with status, service
and tts_available fields, and tts_available is false exactly when the
client failed to construct at startup. -/
theorem claim_c5_health :
    (∀ b : Bool, health_check b
        = ⟨200, .jsonObj (.obj [("status", .str "healthy"),
                                ("service", .str "Flask TTS API"),
                                ("tts_available", .bool b)])⟩)
    ∧ (∀ (env : Env) (construct : CredentialsInfo → ConstructOutcome),
        (health_check ((create_tts_client env construct).isSome)).jsonField "tts_available"
            = some (.bool false)
          ↔ create_tts_client env construct = none) := by
  refine ⟨fun _ => rfl, fun env construct => ?_⟩
  have hfield : ∀ b : Bool,
      (health_check b).jsonField "tts_available" = some (.bool b) := fun _ => rfl
  rw [hfield]
  cases create_tts_client env construct <;> simp

/-- Claim C7: GET /supported-languages is a constant of the program: it
always returns 200 with the fixed 47-entry language map, whose keys are
distinct, and total_count equal to the number of entries. -/
theorem claim_c7_supported_languages :
    supported_languages.status = 200
    ∧ supported_languages_map.length = 47
    ∧ (supported_languages_map.map Prod.fst).Nodup
    ∧ supported_languages.body = .jsonObj (.obj
        [("languages", .obj (supported_languages_map.map (fun p => (p.1, Json.str p.2)))),
         ("total_count", .num 47)]) := by
  refine ⟨rfl, rfl, ?_, rfl⟩
  decide

/-- A string of length zero is the empty string. -/
lemma string_eq_empty_of_length {t : String} (h : t.length = 0) : t = "" := by
  cases t with
  | mk data =>
    cases data with
    | nil => rfl
    | cons c cs => simp [String.length] at h

/-- A key found in a JSON object means the object is a nonempty, hence
truthy, dict. -/
lemma truthy_of_lookup {fs : List (String × Json)} {k : String} {j : Json}
    (h : lookupKey k fs = some j) : (Json.obj fs).truthy = true := by
  cases fs with
  | nil => simp [lookupKey] at h
  | cons p rest => simp [Json.truthy]

/-- When the text field holds a string, field extraction succeeds and
returns the stripped text together with the languageCode and voiceName
values (or their defaults). -/
lemma extract_fields_of_str {fs : List (String × Json)} {s : String}
    (h : lookupKey "text" fs = some (Json.str s)) :
    extract_request_fields (.obj fs)
      = .ok (pyStrip s,
             (lookupKey "languageCode" fs).getD (.str "en-US"),
             (lookupKey "voiceName" fs).getD (.str "en-US-Wavenet-D")) := by
  simp [extract_request_fields, Json.pyGet, h, Json.pyStripAttr]

/-- Claim C1: with the client present and a truthy JSON object body, the
/tts handler attempts synthesis exactly when the stripped text (a string
field, stripped of every character Python str.strip removes) has length in
the range 1 to 5000, sending the stripped text and the languageCode and
voiceName values (or defaults); a stripped length of zero gives 400 Text is
required, a length above 5000 gives 400 Text too long, and an absent text
field falls back to the empty string and also gives 400 Text is required —
in all three 400 cases the provider is not called. -/
theorem claim_c1_tts_text_validation :
    (∀ (fs : List (String × Json)) (s : String) (synth : SynthParams → SynthOutcome)
      (tmpPath : String),
    lookupKey "text" fs = some (Json.str s) →
    ((1 ≤ (pyStrip s).length → (pyStrip s).length ≤ 5000 →
       (text_to_speech true (.returns (some (.obj fs))) synth tmpPath).providerCall
         = some ⟨pyStrip s,
                 (lookupKey "languageCode" fs).getD (.str "en-US"),
                 (lookupKey "voiceName" fs).getD (.str "en-US-Wavenet-D")⟩)
     ∧ ((pyStrip s).length = 0 →
       text_to_speech true (.returns (some (.obj fs))) synth tmpPath
         = ⟨⟨400, errorBody "Text is required"⟩, none, []⟩)
     ∧ (5000 < (pyStrip s).length →
       text_to_speech true (.returns (some (.obj fs))) synth tmpPath
         = ⟨⟨400, errorBody "Text too long (max 5000 characters)"⟩, none, []⟩)))
    ∧ (∀ (fs : List (String × Json)) (synth : SynthParams → SynthOutcome)
      (tmpPath : String),
    fs ≠ [] → lookupKey "text" fs = none →
    text_to_speech true (.returns (some (.obj fs))) synth tmpPath
      = ⟨⟨400, errorBody "Text is required"⟩, none, []⟩) := by
  refine ⟨?stringField, ?missingField⟩
  case missingField =>
    intro fs synth tmpPath hfs hnone
    have ht : (Json.obj fs).truthy = true := by
      cases fs with
      | nil => exact absurd rfl hfs
      | cons p rest => simp [Json.truthy]
    have hext : extract_request_fields (.obj fs)
        = .ok (pyStrip "",
               (lookupKey "languageCode" fs).getD (.str "en-US"),
               (lookupKey "voiceName" fs).getD (.str "en-US-Wavenet-D")) := by
      simp [extract_request_fields, Json.pyGet, hnone, Json.pyStripAttr]
    have h0 : pyStrip "" = "" := rfl
    simp [text_to_speech, ht, hext, h0]
  intro fs s synth tmpPath hlookup
  have ht := truthy_of_lookup hlookup
  have hext := extract_fields_of_str hlookup
  refine ⟨?_, ?_, ?_⟩
  · intro hlo hhi
    have hne : ¬ (pyStrip s = "") := by
      intro h0
      rw [h0] at hlo
      simp at hlo
    have hgt : ¬ (5000 < (pyStrip s).length) := by omega
    simp only [text_to_speech, ht, hext]
    simp only [Bool.true_eq_false, if_false, reduceCtorEq, if_neg hne, if_neg hgt]
    cases synth ⟨pyStrip s,
        (lookupKey "languageCode" fs).getD (.str "en-US"),
        (lookupKey "voiceName" fs).getD (.str "en-US-Wavenet-D")⟩ <;> rfl
  · intro hzero
    have he : pyStrip s = "" := string_eq_empty_of_length hzero
    simp [text_to_speech, ht, hext, he]
  · intro hgt
    have hne : ¬ (pyStrip s = "") := by
      intro h0
      rw [h0] at hgt
      simp at hgt
    simp [text_to_speech, ht, hext, hne, hgt]

/-- The 5001-character text of the spec example. -/
def longText : String := String.mk (List.replicate 5001 'a')

/-- A text consisting of one no-break space, Unicode whitespace that Python
str.strip removes. -/
def nbspText : String := "\u00a0"

/-- Witness for claim C1 at concrete request bodies. -/
theorem claim_c1_witness :
    ((text_to_speech true (.returns (some (.obj [("text", Json.str " hi ")])))
        (fun _ => SynthOutcome.failure "boom") "tmpA").providerCall
      = some ⟨pyStrip " hi ",
              (lookupKey "languageCode" [("text", Json.str " hi ")]).getD (.str "en-US"),
              (lookupKey "voiceName" [("text", Json.str " hi ")]).getD (.str "en-US-Wavenet-D")⟩)
    ∧ (text_to_speech true (.returns (some (.obj [("text", Json.str "   ")])))
        (fun _ => SynthOutcome.failure "boom") "tmpA"
      = ⟨⟨400, errorBody "Text is required"⟩, none, []⟩)
    ∧ (text_to_speech true (.returns (some (.obj [("text", Json.str longText)])))
        (fun _ => SynthOutcome.failure "boom") "tmpA"
      = ⟨⟨400, errorBody "Text too long (max 5000 characters)"⟩, none, []⟩)
    ∧ (text_to_speech true (.returns (some (.obj [("text", Json.str nbspText)])))
        (fun _ => SynthOutcome.failure "boom") "tmpA"
      = ⟨⟨400, errorBody "Text is required"⟩, none, []⟩)
    ∧ (text_to_speech true (.returns (some (.obj [("languageCode", Json.str "en-US")])))
        (fun _ => SynthOutcome.failure "boom") "tmpA"
      = ⟨⟨400, errorBody "Text is required"⟩, none, []⟩) := by
  have hdrop : ∀ (n : Nat), (List.replicate n 'a').dropWhile isPySpace = List.replicate n 'a' := by
    intro n
    cases n with
    | zero => rfl
    | succ m =>
      have ha : isPySpace 'a' = false := rfl
      simp [List.replicate_succ, List.dropWhile_cons, ha]
  have hstrip : pyStrip longText = String.mk (List.replicate 5001 'a') := by
    show String.mk ((((List.replicate 5001 'a').dropWhile isPySpace).reverse.dropWhile
        isPySpace).reverse) = String.mk (List.replicate 5001 'a')
    rw [hdrop, List.reverse_replicate, hdrop, List.reverse_replicate]
  have hlong : 5000 < (pyStrip longText).length := by
    rw [hstrip]
    show 5000 < (List.replicate 5001 'a').length
    rw [List.length_replicate]
    omega
  refine ⟨?_, ?_, ?_, ?_, ?_⟩
  · exact (claim_c1_tts_text_validation.1 [("text", Json.str " hi ")] " hi " _ _ rfl).1
      (by decide) (by decide)
  · exact (claim_c1_tts_text_validation.1 [("text", Json.str "   ")] "   " _ _ rfl).2.1
      (by decide)
  · exact (claim_c1_tts_text_validation.1 [("text", Json.str longText)] longText _ _ rfl).2.2
      hlong
  · exact (claim_c1_tts_text_validation.1 [("text", Json.str nbspText)] nbspText _ _ rfl).2.1
      (by decide)
  · exact claim_c1_tts_text_validation.2 [("languageCode", Json.str "en-US")] _ _
      (fun h => List.noConfusion h) rfl

/-- If the /tts handler called the provider with params, the overall result
is determined by the outcome of that call: on failure the except block
classifies the message, on success the audio is written to the temp file
and the file response returned. -/
lemma tts_synth_branch :
    ∀ (clientPresent : Bool) (getJson : GetJsonResult) (synth : SynthParams → SynthOutcome)
      (tmpPath : String) (params : SynthParams),
    (text_to_speech clientPresent getJson synth tmpPath).providerCall = some params →
    ((∀ msg, synth params = .failure msg →
       text_to_speech clientPresent getJson synth tmpPath
         = ⟨tts_error_response msg, some params, []⟩)
     ∧ (∀ audio, synth params = .success audio →
       text_to_speech clientPresent getJson synth tmpPath
         = ⟨⟨200, .file tmpPath "audio/mpeg" false "speech.mp3"⟩, some params,
            [⟨tmpPath, audio⟩]⟩)) := by
  intro cp gj synth tmpPath params hcall
  cases cp with
  | false => simp [text_to_speech] at hcall
  | true =>
    cases gj with
    | raises msg => simp [text_to_speech] at hcall
    | returns dataOpt =>
      cases dataOpt with
      | none => simp [text_to_speech] at hcall
      | some data =>
        by_cases ht : data.truthy = false
        · simp [text_to_speech, ht] at hcall
        · cases hext : extract_request_fields data with
          | error msg => simp [text_to_speech, ht, hext] at hcall
          | ok trip =>
            obtain ⟨text, language_code, voice_name⟩ := trip
            by_cases he : text = ""
            · simp [text_to_speech, ht, hext, he] at hcall
            · by_cases hlen : 5000 < text.length
              · simp [text_to_speech, ht, hext, he, hlen] at hcall
              · cases hs : synth ⟨text, language_code, voice_name⟩ with
                | success audio =>
                  simp only [text_to_speech, ht, hext, he, hlen] at hcall
                  simp only [Bool.true_eq_false, if_false, reduceCtorEq, if_neg he,
                    if_neg hlen, hs] at hcall
                  rw [Option.some_inj] at hcall
                  subst hcall
                  constructor
                  · intro msg hmsg
                    rw [hs] at hmsg
                    cases hmsg
                  · intro audio2 haud
                    rw [hs] at haud
                    cases haud
                    simp only [text_to_speech, ht, hext, he, hlen]
                    simp only [Bool.true_eq_false, if_false, reduceCtorEq, if_neg he,
                      if_neg hlen, hs]
                | failure msg =>
                  simp only [text_to_speech, ht, hext, he, hlen] at hcall
                  simp only [Bool.true_eq_false, if_false, reduceCtorEq, if_neg he,
                    if_neg hlen, hs] at hcall
                  rw [Option.some_inj] at hcall
                  subst hcall
                  constructor
                  · intro msg2 hmsg
                    rw [hs] at hmsg
                    cases hmsg
                    simp only [text_to_speech, ht, hext, he, hlen]
                    simp only [Bool.true_eq_false, if_false, reduceCtorEq, if_neg he,
                      if_neg hlen, hs]
                  · intro audio haud
                    rw [hs] at haud
                    cases haud

/-- beginsWith decides the prefix relation on char lists. -/
lemma beginsWith_iff (p h : List Char) : beginsWith p h = true ↔ p <+: h := by
  induction p generalizing h with
  | nil => simp [beginsWith]
  | cons a ps ih =>
    cases h with
    | nil => simp [beginsWith]
    | cons b hs => simp [beginsWith, ih, List.cons_prefix_cons]

/-- containsSeq decides the infix relation on char lists. -/
lemma containsSeq_iff (p h : List Char) : containsSeq p h = true ↔ p <:+: h := by
  induction h with
  | nil => simp [containsSeq, List.isEmpty_iff]
  | cons c rest ih =>
    simp [containsSeq, beginsWith_iff, ih, List.infix_cons_iff]

/-- strContains decides substring containment, the Python in operator. -/
lemma strContains_iff (hay pat : String) :
    strContains hay pat = true ↔ pat.data <:+: hay.data :=
  containsSeq_iff pat.data hay.data

/-- The provider error message the claim C2 counterexample uses, containing
two of the classified substrings at once. -/
def overlap_msg : String := "PERMISSION_DENIED caused by INVALID_ARGUMENT"

/-- Counterexample to claim C2 as stated: this provider error message
contains INVALID_ARGUMENT, yet a /tts request whose synthesis fails with it
gets status 403, not 400, because the PERMISSION_DENIED branch is tested
first. -/
theorem claim_c2_counterexample :
    strContains overlap_msg "INVALID_ARGUMENT" = true
    ∧ (text_to_speech true (.returns (some (.obj [("text", Json.str "hi")])))
        (fun _ => .failure overlap_msg) "tmpB").response.status = 403
    ∧ (text_to_speech true (.returns (some (.obj [("text", Json.str "hi")])))
        (fun _ => .failure overlap_msg) "tmpB").response.status ≠ 400 := by
  refine ⟨by decide, rfl, by decide⟩

/-- Claim C2 as amended: when a /tts synthesis call fails, the response is
the classification of the provider message by the FIRST matching substring
in the order PERMISSION_DENIED (403), INVALID_ARGUMENT (400, message
embedded), UNIMPLEMENTED (503); a message containing none of the three
yields 500 with the message embedded. -/
theorem claim_c2_error_classification :
    ∀ (getJson : GetJsonResult) (synth : SynthParams → SynthOutcome)
      (tmpPath : String) (params : SynthParams) (msg : String),
    (text_to_speech true getJson synth tmpPath).providerCall = some params →
    synth params = .failure msg →
    ((text_to_speech true getJson synth tmpPath).response = tts_error_response msg
     ∧ ("PERMISSION_DENIED".data <:+: msg.data →
         (tts_error_response msg).status = 403)
     ∧ (¬ ("PERMISSION_DENIED".data <:+: msg.data) →
        "INVALID_ARGUMENT".data <:+: msg.data →
         tts_error_response msg
           = ⟨400, errorBody ("Invalid request parameters: " ++ msg)⟩)
     ∧ (¬ ("PERMISSION_DENIED".data <:+: msg.data) →
        ¬ ("INVALID_ARGUMENT".data <:+: msg.data) →
        "UNIMPLEMENTED".data <:+: msg.data →
         (tts_error_response msg).status = 503)
     ∧ (¬ ("PERMISSION_DENIED".data <:+: msg.data) →
        ¬ ("INVALID_ARGUMENT".data <:+: msg.data) →
        ¬ ("UNIMPLEMENTED".data <:+: msg.data) →
         tts_error_response msg
           = ⟨500, errorBody ("TTS service error: " ++ msg)⟩)) := by
  intro getJson synth tmpPath params msg hcall hfail
  have hres := ((tts_synth_branch true getJson synth tmpPath params hcall).1 msg hfail)
  refine ⟨by rw [hres], ?_, ?_, ?_, ?_⟩
  · intro hpd
    have hb : strContains msg "PERMISSION_DENIED" = true := (strContains_iff _ _).mpr hpd
    simp [tts_error_response, hb]
  · intro hpd hia
    have hbp : ¬ (strContains msg "PERMISSION_DENIED" = true) := by
      rw [strContains_iff]
      exact hpd
    have hbi : strContains msg "INVALID_ARGUMENT" = true := (strContains_iff _ _).mpr hia
    simp [tts_error_response, hbp, hbi]
  · intro hpd hia hun
    have hbp : ¬ (strContains msg "PERMISSION_DENIED" = true) := by
      rw [strContains_iff]
      exact hpd
    have hbi : ¬ (strContains msg "INVALID_ARGUMENT" = true) := by
      rw [strContains_iff]
      exact hia
    have hbu : strContains msg "UNIMPLEMENTED" = true := (strContains_iff _ _).mpr hun
    simp [tts_error_response, hbp, hbi, hbu]
  · intro hpd hia hun
    have hbp : ¬ (strContains msg "PERMISSION_DENIED" = true) := by
      rw [strContains_iff]
      exact hpd
    have hbi : ¬ (strContains msg "INVALID_ARGUMENT" = true) := by
      rw [strContains_iff]
      exact hia
    have hbu : ¬ (strContains msg "UNIMPLEMENTED" = true) := by
      rw [strContains_iff]
      exact hun
    simp [tts_error_response, hbp, hbi, hbu]

/-- Witness for claim C2 at a concrete request and provider message. -/
theorem claim_c2_witness :
    (text_to_speech true (.returns (some (.obj [("text", Json.str "hi")])))
        (fun _ => .failure "quota exhausted") "tmpC").response
      = tts_error_response "quota exhausted"
    ∧ tts_error_response "quota exhausted"
      = ⟨500, errorBody ("TTS service error: " ++ "quota exhausted")⟩ := by
  have h := claim_c2_error_classification
    (.returns (some (.obj [("text", Json.str "hi")])))
    (fun _ => .failure "quota exhausted") "tmpC"
    ⟨"hi", Json.str "en-US", Json.str "en-US-Wavenet-D"⟩ "quota exhausted" rfl rfl
  exact ⟨h.1, h.2.2.2.2 (by decide) (by decide) (by decide)⟩

/-- The message of the BadRequest exception Flask raises from
request.get_json() when the body is not valid JSON (silent mode off, the
default; the handler catches it like any provider exception). -/
def flask_invalid_json_msg : String :=
  "400 Bad Request: Failed to decode JSON object: Expecting value: line 1 column 1 (char 0)"

/-- Counterexample to claim C4 as stated: with the client present, a body
that is not valid JSON makes request.get_json() raise; the blanket except
classifies the BadRequest message, which contains none of the three
substrings, so /tts answers 500, not 400. -/
theorem claim_c4_counterexample :
    (text_to_speech true (.raises flask_invalid_json_msg)
        (fun _ => .failure "x") "tmpD").response.status = 500
    ∧ (text_to_speech true (.raises flask_invalid_json_msg)
        (fun _ => .failure "x") "tmpD").response.status ≠ 400 := by
  exact ⟨rfl, by decide⟩

/-- Claim C4 as amended: with the client present, a get_json result with no
data (missing body under legacy Flask, or any falsy JSON value) yields 400
No JSON data provided; a body that is not valid JSON makes get_json raise,
the exception lands in the blanket except block, and the BadRequest message
maps to 500 because it contains none of the classified substrings. -/
theorem claim_c4_body_handling :
    ∀ (synth : SynthParams → SynthOutcome) (tmpPath : String),
    ((∀ msg, text_to_speech true (.raises msg) synth tmpPath
        = ⟨tts_error_response msg, none, []⟩)
     ∧ (text_to_speech true (.returns none) synth tmpPath
        = ⟨⟨400, errorBody "No JSON data provided"⟩, none, []⟩)
     ∧ (∀ data, data.truthy = false →
        text_to_speech true (.returns (some data)) synth tmpPath
          = ⟨⟨400, errorBody "No JSON data provided"⟩, none, []⟩)
     ∧ (tts_error_response flask_invalid_json_msg).status = 500) := by
  intro synth tmpPath
  refine ⟨fun msg => rfl, rfl, ?_, rfl⟩
  intro data hd
  simp [text_to_speech, hd]

/-- Witness for claim C4 at a concrete falsy body. -/
theorem claim_c4_witness :
    text_to_speech true (.returns (some (Json.obj [])))
        (fun _ => SynthOutcome.failure "x") "tmpE"
      = ⟨⟨400, errorBody "No JSON data provided"⟩, none, []⟩ :=
  (claim_c4_body_handling (fun _ => SynthOutcome.failure "x") "tmpE").2.2.1
    (Json.obj []) rfl

/-- Counterexample to claim C9 as stated: after a successful /tts request
the audio bytes are still on disk, in the temp file created with delete
disabled and never removed, so a copy of the audio outlives the request. -/
theorem claim_c9_counterexample :
    (text_to_speech true (.returns (some (.obj [("text", Json.str "Hello")])))
        (fun _ => .success [77, 80, 51]) "/tmp/tmpabc.mp3").response.status = 200
    ∧ (text_to_speech true (.returns (some (.obj [("text", Json.str "Hello")])))
        (fun _ => .success [77, 80, 51]) "/tmp/tmpabc.mp3").filesLeft
        = [⟨"/tmp/tmpabc.mp3", [77, 80, 51]⟩]
    ∧ (text_to_speech true (.returns (some (.obj [("text", Json.str "Hello")])))
        (fun _ => .success [77, 80, 51]) "/tmp/tmpabc.mp3").filesLeft ≠ [] := by
  refine ⟨rfl, rfl, ?_⟩
  intro h
  rw [show (text_to_speech true (.returns (some (.obj [("text", Json.str "Hello")])))
      (fun _ => .success [77, 80, 51]) "/tmp/tmpabc.mp3").filesLeft
      = [⟨"/tmp/tmpabc.mp3", [77, 80, 51]⟩] from rfl] at h
  cases h

/-- Claim C9 as amended: on every successful synthesis the audio is written
to the named temporary file (created with delete disabled), the file backs
the 200 audio/mpeg response, and it is never removed: exactly one on-disk
copy of the audio remains after the request finishes. -/
theorem claim_c9_audio_file_persists :
    ∀ (getJson : GetJsonResult) (synth : SynthParams → SynthOutcome)
      (tmpPath : String) (params : SynthParams) (audio : List Nat),
    (text_to_speech true getJson synth tmpPath).providerCall = some params →
    synth params = .success audio →
    ((text_to_speech true getJson synth tmpPath).response
        = ⟨200, .file tmpPath "audio/mpeg" false "speech.mp3"⟩
     ∧ (text_to_speech true getJson synth tmpPath).filesLeft = [⟨tmpPath, audio⟩]) := by
  intro gj synth tmpPath params audio hcall hs
  have h := (tts_synth_branch true gj synth tmpPath params hcall).2 audio hs
  rw [h]
  exact ⟨rfl, rfl⟩

/-- Witness for claim C9 at a concrete request. -/
theorem claim_c9_witness :
    ((text_to_speech true (.returns (some (.obj [("text", Json.str "Hello")])))
        (fun _ => .success [1, 2]) "/tmp/tmp1.mp3").response
        = ⟨200, .file "/tmp/tmp1.mp3" "audio/mpeg" false "speech.mp3"⟩
     ∧ (text_to_speech true (.returns (some (.obj [("text", Json.str "Hello")])))
        (fun _ => .success [1, 2]) "/tmp/tmp1.mp3").filesLeft
        = [⟨"/tmp/tmp1.mp3", [1, 2]⟩]) :=
  claim_c9_audio_file_persists (.returns (some (.obj [("text", Json.str "Hello")])))
    (fun _ => .success [1, 2]) "/tmp/tmp1.mp3"
    ⟨"Hello", Json.str "en-US", Json.str "en-US-Wavenet-D"⟩ [1, 2] rfl rfl

/-- With the client present, a truthy object body whose field extraction
raises lands in the except block with that message. -/
lemma tts_extract_error (fs : List (String × Json)) (synth : SynthParams → SynthOutcome)
    (tmpPath : String) (msg : String)
    (ht : (Json.obj fs).truthy = true)
    (he : extract_request_fields (.obj fs) = .error msg) :
    text_to_speech true (.returns (some (.obj fs))) synth tmpPath
      = ⟨tts_error_response msg, none, []⟩ := by
  simp [text_to_speech, ht, he]

/-- Claim C10: with the client present and a JSON object body whose text
field is present but not a string, the strip call raises an AttributeError,
the blanket except classifies its message, and since the message contains
none of the three substrings the handler answers 500 with the generic TTS
service error body, never calling the provider. -/
theorem claim_c10_nonstring_text :
    ∀ (fs : List (String × Json)) (j : Json) (synth : SynthParams → SynthOutcome)
      (tmpPath : String),
    lookupKey "text" fs = some j →
    (∀ s, j ≠ Json.str s) →
    ((text_to_speech true (.returns (some (.obj fs))) synth tmpPath).response
        = ⟨500, errorBody ("TTS service error: " ++ pyAttrError j.pyTypeName "strip")⟩
     ∧ (text_to_speech true (.returns (some (.obj fs))) synth tmpPath).providerCall
        = none) := by
  intro fs j synth tmpPath hlookup hns
  have ht := truthy_of_lookup hlookup
  cases j with
  | str s => exact absurd rfl (hns s)
  | null =>
    have he : extract_request_fields (.obj fs)
        = .error (pyAttrError "NoneType" "strip") := by
      simp [extract_request_fields, Json.pyGet, hlookup, Json.pyStripAttr, Json.pyTypeName]
    rw [tts_extract_error fs synth tmpPath _ ht he]
    exact ⟨rfl, rfl⟩
  | bool b =>
    have he : extract_request_fields (.obj fs)
        = .error (pyAttrError "bool" "strip") := by
      simp [extract_request_fields, Json.pyGet, hlookup, Json.pyStripAttr, Json.pyTypeName]
    rw [tts_extract_error fs synth tmpPath _ ht he]
    exact ⟨rfl, rfl⟩
  | num n =>
    have he : extract_request_fields (.obj fs)
        = .error (pyAttrError "int" "strip") := by
      simp [extract_request_fields, Json.pyGet, hlookup, Json.pyStripAttr, Json.pyTypeName]
    rw [tts_extract_error fs synth tmpPath _ ht he]
    exact ⟨rfl, rfl⟩
  | arr elems =>
    have he : extract_request_fields (.obj fs)
        = .error (pyAttrError "list" "strip") := by
      simp [extract_request_fields, Json.pyGet, hlookup, Json.pyStripAttr, Json.pyTypeName]
    rw [tts_extract_error fs synth tmpPath _ ht he]
    exact ⟨rfl, rfl⟩
  | obj fields =>
    have he : extract_request_fields (.obj fs)
        = .error (pyAttrError "dict" "strip") := by
      simp [extract_request_fields, Json.pyGet, hlookup, Json.pyStripAttr, Json.pyTypeName]
    rw [tts_extract_error fs synth tmpPath _ ht he]
    exact ⟨rfl, rfl⟩

/-- Witness for claim C10: a numeric text field and a list text field both
give the generic 500. -/
theorem claim_c10_witness :
    ((text_to_speech true (.returns (some (.obj [("text", Json.num 5)])))
        (fun _ => SynthOutcome.failure "x") "tmpF").response
      = ⟨500, errorBody ("TTS service error: " ++ pyAttrError (Json.num 5).pyTypeName "strip")⟩)
    ∧ ((text_to_speech true (.returns (some (.obj [("text", Json.arr [])])))
        (fun _ => SynthOutcome.failure "x") "tmpF").response
      = ⟨500, errorBody ("TTS service error: " ++ pyAttrError (Json.arr []).pyTypeName "strip")⟩) :=
  ⟨(claim_c10_nonstring_text [("text", Json.num 5)] (Json.num 5) _ _ rfl
      (fun _ h => Json.noConfusion h)).1,
   (claim_c10_nonstring_text [("text", Json.arr [])] (Json.arr []) _ _ rfl
      (fun _ h => Json.noConfusion h)).1⟩

/-- An environment with all three required variables set and nothing else. -/
def envAllSet : Env := fun v => if v ∈ required_vars then some "k" else none

/-- An external construction that raises, as from_service_account_info does
on a present but malformed private key. -/
def construct_raises : CredentialsInfo → ConstructOutcome :=
  fun _ => .raises "could not deserialize key data"

/-- An empty environment. -/
def envNoneAll : Env := fun _ => none

/-- An external construction that succeeds. -/
def construct_ok : CredentialsInfo → ConstructOutcome := fun _ => .success

/-- Counterexample to claim C6 as stated: with all three required variables
present and nonempty, credential building still fails when the external
construction raises (the try swallows the exception and returns None), so
failing is not equivalent to a required variable being absent or empty. -/
theorem claim_c6_counterexample :
    ¬ (create_tts_client envAllSet construct_raises = none
        ↔ missing_vars envAllSet ≠ []) := by
  intro h
  have h2 := h.mp rfl
  exact h2 rfl

/-- Claim C6 as amended: credential building fails when a required variable
is absent or empty, and more generally fails exactly when that holds or the
external construction raises; in every failure case the wrapper is absent
and both /tts and /voices then answer 503 instead of crashing. -/
theorem claim_c6_credential_failure :
    ∀ (env : Env) (construct : CredentialsInfo → ConstructOutcome),
    ((missing_vars env ≠ [] → create_tts_client env construct = none)
     ∧ (create_tts_client env construct = none
         ↔ (missing_vars env ≠ []
            ∨ ∃ msg, construct (credentials_info env) = .raises msg))
     ∧ (create_tts_client env construct = none →
         ∀ (getJson : GetJsonResult) (synth : SynthParams → SynthOutcome)
           (tmpPath : String) (lcArg : Option String)
           (providerVoices : String → VoicesOutcome),
         ((text_to_speech ((create_tts_client env construct).isSome) getJson synth
             tmpPath).response.status = 503
          ∧ (list_voices ((create_tts_client env construct).isSome) lcArg
             providerVoices).1.status = 503))) := by
  intro env construct
  have hfail : missing_vars env ≠ [] → create_tts_client env construct = none := by
    intro hm
    have hne : (missing_vars env).isEmpty = false := by
      cases hmv : missing_vars env with
      | nil => exact absurd hmv hm
      | cons a l => rfl
    simp [create_tts_client, hne]
  refine ⟨hfail, ?_, ?_⟩
  · constructor
    · intro hnone
      by_cases hmv : (missing_vars env).isEmpty = false
      · left
        intro h0
        rw [h0] at hmv
        cases hmv
      · right
        rw [create_tts_client, if_neg hmv] at hnone
        cases hc : construct (credentials_info env) with
        | success => rw [hc] at hnone; cases hnone
        | raises m => exact ⟨m, rfl⟩
    · intro hor
      cases hor with
      | inl hm => exact hfail hm
      | inr hex =>
        obtain ⟨m, hm⟩ := hex
        by_cases hmv : (missing_vars env).isEmpty = false
        · simp [create_tts_client, hmv]
        · rw [create_tts_client, if_neg hmv, hm]
  · intro hnone getJson synth tmpPath lcArg providerVoices
    rw [hnone]
    exact ⟨rfl, rfl⟩

/-- Witness for claim C6: with an empty environment the wrapper is absent
and both handlers answer 503. -/
theorem claim_c6_witness :
    ((text_to_speech ((create_tts_client envNoneAll construct_ok).isSome)
        (.returns none) (fun _ => SynthOutcome.failure "x") "tmpG").response.status = 503
     ∧ (list_voices ((create_tts_client envNoneAll construct_ok).isSome) none
        (fun _ => VoicesOutcome.failure "x")).1.status = 503) :=
  (claim_c6_credential_failure envNoneAll construct_ok).2.2 rfl
    (.returns none) (fun _ => SynthOutcome.failure "x") "tmpG" none
    (fun _ => VoicesOutcome.failure "x")

/-- The head of the unescaped list is the original head or a newline. -/
lemma unescape_head (l : List Char) :
    (unescapeNewlines l).head? = l.head? ∨ (unescapeNewlines l).head? = some '\n' := by
  match l with
  | [] => exact Or.inl rfl
  | [c] => exact Or.inl rfl
  | c1 :: c2 :: rest =>
    by_cases h : (c1 = '\\' && c2 = 'n') = true
    · right
      simp [unescapeNewlines, h]
    · left
      simp [unescapeNewlines, h]

/-- Unescaping replaces a leading backslash n pair by a newline. -/
lemma unescape_bsn (l : List Char) :
    unescapeNewlines ('\\' :: 'n' :: l) = '\n' :: unescapeNewlines l := by
  simp [unescapeNewlines]

/-- No literal backslash n pair survives unescaping. -/
lemma unescape_no_bsn (l : List Char) : ¬ (['\\', 'n'] <:+: unescapeNewlines l) := by
  induction l using unescapeNewlines.induct with
  | case1 => simp [unescapeNewlines]
  | case2 c =>
    intro hinf
    have hle := hinf.length_le
    simp [unescapeNewlines] at hle
  | case3 c1 c2 rest h ih =>
    rw [show unescapeNewlines (c1 :: c2 :: rest) = '\n' :: unescapeNewlines rest from
      by simp [unescapeNewlines, h]]
    intro hinf
    rw [List.infix_cons_iff] at hinf
    cases hinf with
    | inl hpre => exact absurd (List.cons_prefix_cons.mp hpre).1 (by decide)
    | inr htail => exact ih htail
  | case4 c1 c2 rest h ih =>
    rw [show unescapeNewlines (c1 :: c2 :: rest) = c1 :: unescapeNewlines (c2 :: rest) from
      by simp [unescapeNewlines, h]]
    intro hinf
    rw [List.infix_cons_iff] at hinf
    cases hinf with
    | inl hpre =>
      obtain ⟨hc1, hp2⟩ := List.cons_prefix_cons.mp hpre
      cases hu : unescapeNewlines (c2 :: rest) with
      | nil =>
        rw [hu] at hp2
        simp at hp2
      | cons d ds =>
        rw [hu] at hp2
        have hd : 'n' = d := (List.cons_prefix_cons.mp hp2).1
        have hh := unescape_head (c2 :: rest)
        rw [hu] at hh
        cases hh with
        | inl h1 =>
          have hdc : d = c2 := by
            simp only [List.head?] at h1
            exact Option.some_inj.mp h1
          apply h
          rw [← hc1, ← hdc, ← hd]
          decide
        | inr h2 =>
          have hdn : d = '\n' := by
            simp only [List.head?] at h2
            exact Option.some_inj.mp h2
          rw [hdn] at hd
          exact absurd hd (by decide)
    | inr htail => exact ih htail

/-- Unescaping leaves a list without any backslash n pair unchanged. -/
lemma unescape_id_of_no_occ :
    ∀ l : List Char, ¬ (['\\', 'n'] <:+: l) → unescapeNewlines l = l := by
  intro l
  induction l using unescapeNewlines.induct with
  | case1 => intro _; rfl
  | case2 c => intro _; rfl
  | case3 c1 c2 rest h ih =>
    intro hno
    exfalso
    apply hno
    have hc1 : c1 = '\\' := by
      have := h
      simp only [Bool.and_eq_true, decide_eq_true_eq] at this
      exact this.1
    have hc2 : c2 = 'n' := by
      have := h
      simp only [Bool.and_eq_true, decide_eq_true_eq] at this
      exact this.2
    rw [hc1, hc2]
    exact (List.prefix_iff_eq_append.mpr rfl).isInfix
  | case4 c1 c2 rest h ih =>
    intro hno
    rw [show unescapeNewlines (c1 :: c2 :: rest) = c1 :: unescapeNewlines (c2 :: rest) from
      by simp [unescapeNewlines, h]]
    have htail : ¬ (['\\', 'n'] <:+: (c2 :: rest)) := by
      intro ht
      exact hno (List.infix_cons_iff.mpr (Or.inr ht))
    rw [ih htail]

/-- Claim C8: the private key placed in the credentials dict is exactly the
environment value (empty when absent) with every literal backslash n pair
replaced by a real newline: a leading pair becomes a newline, no literal
pair survives, and text without such pairs is untouched. -/
theorem claim_c8_private_key_unescaped :
    (∀ env : Env, (credentials_info env).private_key
        = String.mk (unescapeNewlines ((env "GOOGLE_CLOUD_PRIVATE_KEY").getD "").data))
    ∧ (∀ env : Env, env "GOOGLE_CLOUD_PRIVATE_KEY" = none →
        (credentials_info env).private_key = "")
    ∧ (∀ l : List Char, unescapeNewlines ('\\' :: 'n' :: l) = '\n' :: unescapeNewlines l)
    ∧ (∀ l : List Char, ¬ (['\\', 'n'] <:+: unescapeNewlines l))
    ∧ (∀ l : List Char, ¬ (['\\', 'n'] <:+: l) → unescapeNewlines l = l) := by
  refine ⟨fun env => rfl, ?_, unescape_bsn, unescape_no_bsn, unescape_id_of_no_occ⟩
  intro env he
  show String.mk (unescapeNewlines ((env "GOOGLE_CLOUD_PRIVATE_KEY").getD "").data) = ""
  rw [he]
  rfl

/-- Witness for claim C8 at concrete inputs. -/
theorem claim_c8_witness :
    (credentials_info (fun _ => none)).private_key = ""
    ∧ unescapeNewlines ("ab".data) = "ab".data :=
  ⟨claim_c8_private_key_unescaped.2.1 (fun _ => none) rfl,
   claim_c8_private_key_unescaped.2.2.2.2 ("ab".data) (by decide)⟩

end FlaskTts
